import Mathlib

/-!
# Design API handlers

A shallow embedding of `design-service/src/controllers/design-controller.js`:
the five request handlers `getUserDesigns`, `getUserDesignsByID`, `saveDesign`,
`deleteDesign` and `generatePrompt`.

Each handler is a function of the environment it reads (`Env`), the collection
of design documents before the call (`Store`) and the request (`Request`); it
returns the response written to `res`, the collection after the call and the
outbound HTTP requests that were sent (`Outcome`).  An `await` that rejects is
an `Except.error`, and the `catch` block of a handler is the branch taken on
it.
-/

namespace DesignService

/-! ## JavaScript values -/

/-- A JavaScript value as it reaches a handler from a parsed JSON body (plus
`undefined` for an absent property).  Numbers are the integers. -/
inductive JsVal where
  | undefined
  | null
  | bool (b : Bool)
  | num (n : Int)
  | str (s : String)
  | obj (fields : List (String × JsVal))
  | arr (items : List JsVal)

namespace JsVal

/-- The boolean coercion of a value (`if (v)`, `!v`, `v || w`). -/
def truthy : JsVal → Bool
  | undefined => false
  | null => false
  | bool b => b
  | num n => n != 0
  | str s => s != ""
  | obj _ => true
  | arr _ => true

/-- The result of `typeof v`. -/
def typeof : JsVal → String
  | undefined => "undefined"
  | null => "object"
  | bool _ => "boolean"
  | num _ => "number"
  | str _ => "string"
  | obj _ => "object"
  | arr _ => "object"

/-- The expression `a || b`. -/
def or (a b : JsVal) : JsVal :=
  if a.truthy then a else b

/-- Whether the value is `null` or `undefined`. -/
def nullish : JsVal → Bool
  | undefined => true
  | null => true
  | _ => false

/-- Property lookup `v[k]` on a value that is neither `null` nor `undefined`,
for the keys the handlers read (`choices`, `message`, `content` and the index
`0`): an own property of an object, element `0` of an array, character `0` of a
string, and `undefined` everywhere else. -/
def member (v : JsVal) (k : String) : JsVal :=
  match v with
  | obj fields => (fields.lookup k).getD undefined
  | arr items => if k = "0" then items.head?.getD undefined else undefined
  | str s =>
    if k = "0" then
      match s.data with
      | [] => undefined
      | c :: _ => str (String.singleton c)
    else undefined
  | _ => undefined

end JsVal

/-! ## Exceptions -/

/-- The ways the request made by `axios.post` rejects. -/
inductive AxiosError where
  | network (code : String)
  | timeout
  | status (code : Nat) (data : JsVal)

/-- What a `catch (e)` block of a handler can receive. -/
inductive Exn where
  | typeError
  | persistence
  | axios (e : AxiosError)

namespace JsVal

/-- The member access `v.k` (or `v[k]`): a `TypeError` on `null` and
`undefined`. -/
def get (v : JsVal) (k : String) : Except Exn JsVal :=
  if v.nullish then .error .typeError else .ok (v.member k)

/-- The optional access `v?.k` (or `v?.[k]`). -/
def getOpt (v : JsVal) (k : String) : JsVal :=
  if v.nullish then undefined else v.member k

end JsVal

/-! ## Data model -/

/-- Modelled from the spec: the schema `models/design.js` is not among the
sources.  A design document has the fields of spec section 3: the identifier
and the owner are strings, the timestamps are milliseconds, and `name`,
`canvasData`, `width`, `height` and `category` hold the value that was assigned
to them, stored as it is. -/
structure Design where
  _id : String
  userId : String
  name : JsVal
  canvasData : JsVal
  width : JsVal
  height : JsVal
  category : JsVal
  createdAt : Nat
  updatedAt : Nat

/-- The collection of design documents. -/
abbrev Store := List Design

/-- The invariant the database keeps on the collection: identifiers are unique
and none is the empty string. -/
def Store.WF (s : Store) : Prop :=
  (s.map (fun d => d._id)).Nodup ∧ ∀ d ∈ s, d._id ≠ ""

/-- The outbound request of `generatePrompt`: the arguments of `axios.post`.
The user message is kept as its two parts, the design that is serialised into
it and the prompt. -/
structure AiRequest where
  url : String
  model : String
  systemText : String
  design : Design
  prompt : String
  authorization : String
  contentType : String
  timeout : Nat

/-- What a handler reads from outside the request: the clock, the identifier a
new document receives, the process environment, the answer of the AI service
to a request, which documents the database selects for an `_id` filter value
that is not a string (an operator object such as `\x7b"$ne": null\x7d`, `undefined`,
a number), and whether a call of the persistence layer rejects. -/
structure Env where
  now : Nat
  newId : String
  AIML_API_KEY : Option String
  axiosPost : AiRequest → Except AxiosError JsVal
  selects : JsVal → Design → Bool
  findFails : Bool
  findOneFails : Bool
  saveFails : Bool
  deleteOneFails : Bool

/-- The request body; a property that is absent is `undefined`. -/
structure Body where
  designId : JsVal
  name : JsVal
  canvasData : JsVal
  width : JsVal
  height : JsVal
  category : JsVal
  prompt : JsVal
  id : JsVal

/-- The empty body. -/
def Body.empty : Body :=
  ⟨.undefined, .undefined, .undefined, .undefined, .undefined, .undefined, .undefined, .undefined⟩

/-- The parts of `req` the handlers read: `req.user.userId`, `req.params.id`
and `req.body`. -/
structure Request where
  userId : String
  paramsId : String
  body : Body

/-- The `data` property of a response body. -/
inductive Payload where
  | design (d : Design)
  | designs (l : List Design)

/-- The response: `res.status(status).json(\x7bsuccess, data, message\x7d)`; a
property that is not sent is `none`. -/
structure Response where
  status : Nat
  success : Bool
  data : Option Payload
  message : Option String

/-- The result of running a handler. -/
structure Outcome where
  res : Response
  store : Store
  aiCalls : List AiRequest

/-! ## Persistence layer

The database is outside the repository.  The collection is a list of documents
in insertion order, and the calls the handlers make on the `Design` model are
functions on it: a query reads the list, `save` and `deleteOne` return the new
list.  Each call rejects when the environment says so, which is how a handler
reaches its `catch` block from a persistence call.
-/

/-- The order of `.sort(\x7bupdatedAt: -1\x7d)`. -/
def newerFirst (a b : Design) : Prop :=
  b.updatedAt ≤ a.updatedAt

instance : DecidableRel newerFirst :=
  fun a b => inferInstanceAs (Decidable (b.updatedAt ≤ a.updatedAt))

instance : IsTotal Design newerFirst :=
  ⟨fun a b => Nat.le_total b.updatedAt a.updatedAt⟩

instance : IsTrans Design newerFirst :=
  ⟨fun _ _ _ hab hbc => Nat.le_trans hbc hab⟩

/-- Whether the `_id` condition of a filter selects a document.  A string
selects the document with that identifier.  The handlers pass the value of the
request on as it is, and what the database does with a value that is not a
string is not fixed here: the environment decides it. -/
def matchesId (env : Env) (id : JsVal) (d : Design) : Bool :=
  match id with
  | .str s => d._id == s
  | v => env.selects v d

/-- The query `Design.find(\x7buserId\x7d).sort(\x7bupdatedAt: -1\x7d)`. -/
def Design.find (env : Env) (s : Store) (userId : String) : Except Exn (List Design) :=
  if env.findFails then .error .persistence
  else .ok ((s.filter (fun d => d.userId == userId)).insertionSort newerFirst)

/-- Whether a document has the owner given in a filter; a filter without
`userId` accepts every owner. -/
def ownerMatches (owner : Option String) (d : Design) : Bool :=
  match owner with
  | some u => d.userId == u
  | none => true

/-- The query `Design.findOne(\x7b_id, userId\x7d)`, and `Design.findOne(\x7b_id\x7d)`
when no owner is given. -/
def Design.findOne (env : Env) (s : Store) (id : JsVal) (owner : Option String) :
    Except Exn (Option Design) :=
  if env.findOneFails then .error .persistence
  else .ok (s.find? (fun d => matchesId env id d && ownerMatches owner d))

/-- The call `doc.save()`: a new document is inserted, and rejected when its
identifier is taken; a loaded document replaces the stored one with its
identifier, and is rejected when there is none. -/
def Design.save (env : Env) (s : Store) (isNew : Bool) (doc : Design) :
    Except Exn (Design × Store) :=
  if env.saveFails then .error .persistence
  else if isNew then
    if s.any (fun d => d._id == doc._id) then .error .persistence
    else .ok (doc, s ++ [doc])
  else
    if s.any (fun d => d._id == doc._id) then
      .ok (doc, s.map (fun d => if d._id == doc._id then doc else d))
    else .error .persistence

/-- The call `Design.deleteOne(\x7b_id\x7d)`. -/
def Design.deleteOne (env : Env) (s : Store) (id : JsVal) : Except Exn Store :=
  if env.deleteOneFails then .error .persistence
  else .ok (s.eraseP (matchesId env id))

/-- Modelled from the spec: the schema `models/design.js` is not among the
sources.  `new Design(fields)` gives the document a fresh identifier and, by
spec section 3, its two timestamps. -/
def Design.new (env : Env) (userId : String) (name width height canvasData category : JsVal) :
    Design :=
  { _id := env.newId, userId := userId, name := name, canvasData := canvasData,
    width := width, height := height, category := category,
    createdAt := env.now, updatedAt := env.now }

/-! ## Handlers -/

/-- A response with a `data` property. -/
def Response.withData (status : Nat) (p : Payload) : Response :=
  { status := status, success := true, data := some p, message := none }

/-- A response with a `message` property. -/
def Response.withMessage (status : Nat) (success : Bool) (msg : String) : Response :=
  { status := status, success := success, data := none, message := some msg }

/-- The handler `getUserDesigns`. -/
def getUserDesigns (env : Env) (store : Store) (req : Request) : Outcome :=
  let userId := req.userId
  match Design.find env store userId with
  | .ok designs => ⟨Response.withData 200 (.designs designs), store, []⟩
  | .error _ => ⟨Response.withMessage 500 false "Failed to fetch designs", store, []⟩

/-- The handler `getUserDesignsByID`. -/
def getUserDesignsByID (env : Env) (store : Store) (req : Request) : Outcome :=
  let userId := req.userId
  let designId := JsVal.str req.paramsId
  match Design.findOne env store designId (some userId) with
  | .ok none =>
    ⟨Response.withMessage 404 false "Design not found! or you don't have permission to view it.",
      store, []⟩
  | .ok (some design) => ⟨Response.withData 200 (.design design), store, []⟩
  | .error _ => ⟨Response.withMessage 500 false "Failed to fetch design by ID", store, []⟩

/-- The assignment `if (v) design.f = v`: the value the field has afterwards. -/
def assignIfTruthy (v old : JsVal) : JsVal :=
  if v.truthy then v else old

/-- The handler `saveDesign`. -/
def saveDesign (env : Env) (store : Store) (req : Request) : Outcome :=
  let userId := req.userId
  let b := req.body
  let failed : Outcome := ⟨Response.withMessage 500 false "Failed to save design", store, []⟩
  if b.designId.truthy then
    match Design.findOne env store b.designId (some userId) with
    | .error _ => failed
    | .ok none =>
      ⟨Response.withMessage 404 false "Design not found! or you don't have permission to view it.",
        store, []⟩
    | .ok (some design) =>
      let design := { design with name := assignIfTruthy b.name design.name }
      let design := { design with canvasData := assignIfTruthy b.canvasData design.canvasData }
      let design := { design with width := assignIfTruthy b.width design.width }
      let design := { design with height := assignIfTruthy b.height design.height }
      let design := { design with category := assignIfTruthy b.category design.category }
      let design := { design with updatedAt := env.now }
      match Design.save env store false design with
      | .error _ => failed
      | .ok (updatedDesign, store') => ⟨Response.withData 200 (.design updatedDesign), store', []⟩
  else
    let newDesign :=
      Design.new env userId (b.name.or (.str "Untitled Design")) b.width b.height b.canvasData
        b.category
    match Design.save env store true newDesign with
    | .error _ => failed
    | .ok (saved, store') => ⟨Response.withData 200 (.design saved), store', []⟩

/-- The handler `deleteDesign`. -/
def deleteDesign (env : Env) (store : Store) (req : Request) : Outcome :=
  let userId := req.userId
  let designId := JsVal.str req.paramsId
  let failed : Outcome := ⟨Response.withMessage 500 false "Failed to delete design", store, []⟩
  match Design.findOne env store designId (some userId) with
  | .error _ => failed
  | .ok none =>
    ⟨Response.withMessage 404 false "Design not found! or you don't have permission to delete it.",
      store, []⟩
  | .ok (some _) =>
    match Design.deleteOne env store designId with
    | .error _ => failed
    | .ok store' => ⟨Response.withMessage 200 true "Design deleted successfully", store', []⟩

/-- The text of the system message of `generatePrompt`. -/
def systemText : String :=
  "\n\"Always return a valid Fabric.js JSON object (no extra text, no markdown).\",\n\"Preserve all existing images from design.objects.\",\n\"Image placement:\",\n\" - If only one image → make it a full-width hero/cover image at the top (40–50% of canvas height).\",\n\"Text placement & style:\",\n\" - Headline → large, bold, top-centered or over hero image, eye-catching.\",\n\" - Highlights → mid section, professional font, aligned left or center, use spacing.\",\n\" - Call-to-action → bold, bottom area, with contrast color background or highlight.\",\n\"Visual style:\",\n\" - Use emojis for engagement (🏡 ✨ 📍 📞).\",\n\" - Maintain proportional font sizes relative to canvas width/height.\",\n\" - Ensure good contrast (dark text on light bg or light on dark).\",\n\" - Avoid overlapping text with images.\",\n\" - Use modern fonts (sans-serif, clean).\",\n\"Layout:\",\n\" - Balanced spacing between text blocks.\",\n\" - Grid or aligned arrangement for multiple images.\",\n\" - Minimalist, professional, modern aesthetic.\"\n        "

/-- The string a template literal inserts for a value that is a string. -/
def templateText : JsVal → String
  | .str s => s
  | _ => ""

/-- The arguments of the `axios.post` call of `generatePrompt`. -/
def aiRequest (key : String) (design : Design) (prompt : JsVal) : AiRequest :=
  { url := "https://openrouter.ai/api/v1/chat/completions"
    model := "gpt-4o-mini"
    systemText := systemText
    design := design
    prompt := templateText prompt
    authorization := "Bearer " ++ key
    contentType := "application/json"
    timeout := 30000 }

/-- The expression `response.data.choices?.[0]?.message?.content || ""` that is
logged as `result`. -/
def loggedResult (data : JsVal) : Except Exn JsVal :=
  match data.get "choices" with
  | .error e => .error e
  | .ok choices =>
    .ok ((((choices.getOpt "0").getOpt "message").getOpt "content").or (.str ""))

/-- The expression `response.data.choices[0]?.message?.content || ""` that is
assigned to `aiResponse`. -/
def aiResponse (data : JsVal) : Except Exn JsVal :=
  match data.get "choices" with
  | .error e => .error e
  | .ok choices =>
    match choices.get "0" with
    | .error e => .error e
    | .ok first => .ok (((first.getOpt "message").getOpt "content").or (.str ""))

/-- Whether `process.env.AIML_API_KEY` is truthy, and its value. -/
def apiKey (env : Env) : Option String :=
  match env.AIML_API_KEY with
  | some k => if k != "" then some k else none
  | none => none

/-- The handler `generatePrompt`. -/
def generatePrompt (env : Env) (store : Store) (req : Request) : Outcome :=
  let prompt := req.body.prompt
  let id := req.body.id
  let failed (calls : List AiRequest) : Outcome :=
    ⟨Response.withMessage 500 false "Failed to generate AI response", store, calls⟩
  if !prompt.truthy || prompt.typeof != "string" then
    ⟨Response.withMessage 400 false "'prompt' is required in request body", store, []⟩
  else
    match Design.findOne env store id none with
    | .error _ => failed []
    | .ok none =>
      ⟨Response.withMessage 404 false "Design not found! or you don't have permission to view it.",
        store, []⟩
    | .ok (some design) =>
      match apiKey env with
      | none => ⟨Response.withMessage 500 false "Server missing AIML API key", store, []⟩
      | some key =>
        let request := aiRequest key design prompt
        match env.axiosPost request with
        | .error _ => failed [request]
        | .ok data =>
          match loggedResult data with
          | .error _ => failed [request]
          | .ok _ =>
            match aiResponse data with
            | .error _ => failed [request]
            | .ok text =>
              let design := { design with canvasData := text }
              match Design.save env store false design with
              | .error _ => failed [request]
              | .ok (_, store') =>
                ⟨Response.withMessage 200 true "successfully", store', [request]⟩


/-! ## Sample data -/

/-- A design with the given identifier, owner and update time. -/
def sampleDesign (id owner : String) (updatedAt : Nat) : Design :=
  { _id := id, userId := owner, name := .str "Flyer", canvasData := .str "canvas-0",
    width := .num 800, height := .num 600, category := .str "poster",
    createdAt := 1, updatedAt := updatedAt }

/-- A collection of three designs, two of `alice` and one of `bob`. -/
def sampleStore : Store :=
  [sampleDesign "d1" "alice" 10, sampleDesign "d2" "bob" 30, sampleDesign "d3" "alice" 20]

/-- An environment in which no persistence call rejects, the key is configured
and the AI service answers every request with `reply`. -/
def sampleEnv (reply : Except AxiosError JsVal) : Env :=
  { now := 100, newId := "d9", AIML_API_KEY := some "secret", axiosPost := fun _ => reply,
    selects := fun _ _ => false,
    findFails := false, findOneFails := false, saveFails := false, deleteOneFails := false }

/-- The body `\x7bchoices: [\x7bmessage: \x7bcontent: text\x7d\x7d]\x7d`. -/
def completion (text : JsVal) : JsVal :=
  .obj [("choices", .arr [.obj [("message", .obj [("content", text)])]])]

/-- The environment `sampleEnv reply` without the API key. -/
def sampleEnvNoKey (reply : Except AxiosError JsVal) : Env :=
  { sampleEnv reply with AIML_API_KEY := none }

/-- The environment `sampleEnvNoKey reply` over a database that selects every
document for an `_id` filter value that is not a string. -/
def sampleEnvSelecting (reply : Except AxiosError JsVal) : Env :=
  { sampleEnvNoKey reply with selects := fun _ _ => true }

/-- A `generatePrompt` request body. -/
def promptBody (prompt id : JsVal) : Body :=
  { Body.empty with prompt := prompt, id := id }

/-! ## Lemmas on the collection -/

theorem matchesId_str (env : Env) (i : String) (d : Design) :
    matchesId env (.str i) d = true ↔ d._id = i := by
  simp [matchesId]

theorem find?_unique_id (env : Env) (s : Store) (d : Design) (q : Design → Bool)
    (hnd : (s.map (fun x => x._id)).Nodup) (hd : d ∈ s) :
    s.find? (fun x => matchesId env (.str d._id) x && q x) = if q d then some d else none := by
  induction s with
  | nil => cases hd
  | cons a t ih =>
    simp only [List.map_cons, List.nodup_cons] at hnd
    rcases List.mem_cons.mp hd with h | h
    · subst h
      by_cases hq : q d = true
      · simp [List.find?_cons, matchesId, hq]
      · have hq' : q d = false := by simpa using hq
        simp only [List.find?_cons, matchesId, beq_self_eq_true, hq', Bool.and_false]
        simp only [Bool.false_eq_true, if_false]
        apply List.find?_eq_none.mpr
        intro x hx
        have hne : x._id ≠ d._id := by
          intro he
          exact hnd.1 (he ▸ List.mem_map_of_mem (fun x => x._id) hx)
        simp [hne]
    · have hne : a._id ≠ d._id := by
        intro he
        exact hnd.1 (he ▸ List.mem_map_of_mem (fun x => x._id) h)
      have hm : matchesId env (.str d._id) a = false := by simp [matchesId, hne]
      simp only [List.find?_cons, hm, Bool.false_and]
      exact ih hnd.2 h

theorem find?_absent_id (env : Env) (s : Store) (i : String) (q : Design → Bool)
    (h : ∀ x ∈ s, x._id ≠ i) :
    s.find? (fun x => matchesId env (.str i) x && q x) = none := by
  apply List.find?_eq_none.mpr
  intro x hx
  simp [matchesId, h x hx]

theorem findOne_eq (env : Env) (s : Store) (id : JsVal) (owner : Option String)
    (hdb : env.findOneFails = false) :
    Design.findOne env s id owner
      = .ok (s.find? (fun x => matchesId env id x && ownerMatches owner x)) := by
  simp only [Design.findOne, hdb, Bool.false_eq_true, if_false]

theorem findOne_unique (env : Env) (s : Store) (d : Design) (owner : Option String)
    (hdb : env.findOneFails = false) (hwf : Store.WF s) (hd : d ∈ s) :
    Design.findOne env s (.str d._id) owner
      = .ok (if ownerMatches owner d then some d else none) := by
  rw [findOne_eq env s _ owner hdb, find?_unique_id env s d _ hwf.1 hd]

theorem findOne_absent (env : Env) (s : Store) (i : String) (owner : Option String)
    (hdb : env.findOneFails = false) (h : ∀ x ∈ s, x._id ≠ i) :
    Design.findOne env s (.str i) owner = .ok none := by
  rw [findOne_eq env s _ owner hdb, find?_absent_id env s i _ h]

theorem ownerMatches_other (d : Design) (b : String) (h : b ≠ d.userId) :
    ownerMatches (some b) d = false := by
  simp only [ownerMatches, beq_eq_false_iff_ne, ne_eq]
  exact fun he => h he.symm

/-! ## Reading a design of another owner -/

/-- C1. In a well-formed collection, when the lookup does not reject, a caller
`b` who asks `getUserDesignsByID` for a design `d` of another owner receives
status 404 with `success = false`, and for every identifier that no design has
the same caller receives the very same response. -/
theorem getUserDesignsByID_foreign_is_not_found (env : Env) (store : Store) (d : Design)
    (b : String) (body : Body) (hwf : Store.WF store) (hd : d ∈ store) (hb : b ≠ d.userId)
    (hdb : env.findOneFails = false) :
    (getUserDesignsByID env store ⟨b, d._id, body⟩).res.status = 404 ∧
    (getUserDesignsByID env store ⟨b, d._id, body⟩).res.success = false ∧
    (getUserDesignsByID env store ⟨b, d._id, body⟩).store = store ∧
    ∀ (i : String) (body' : Body), (∀ x ∈ store, x._id ≠ i) →
      (getUserDesignsByID env store ⟨b, i, body'⟩).res
          = (getUserDesignsByID env store ⟨b, d._id, body⟩).res ∧
      (getUserDesignsByID env store ⟨b, i, body'⟩).res.status = 404 ∧
      (getUserDesignsByID env store ⟨b, i, body'⟩).res.message
          = (getUserDesignsByID env store ⟨b, d._id, body⟩).res.message := by
  have h1 : getUserDesignsByID env store ⟨b, d._id, body⟩
      = ⟨Response.withMessage 404 false
          "Design not found! or you don't have permission to view it.", store, []⟩ := by
    simp only [getUserDesignsByID, findOne_unique env store d (some b) hdb hwf hd,
      ownerMatches_other d b hb, Bool.false_eq_true, if_false]
  have h2 : ∀ (i : String) (body' : Body), (∀ x ∈ store, x._id ≠ i) →
      getUserDesignsByID env store ⟨b, i, body'⟩
        = ⟨Response.withMessage 404 false
            "Design not found! or you don't have permission to view it.", store, []⟩ := by
    intro i body' hi
    simp only [getUserDesignsByID, findOne_absent env store i (some b) hdb hi]
  refine ⟨by rw [h1]; rfl, by rw [h1]; rfl, by rw [h1], ?_⟩
  intro i body' hi
  rw [h1, h2 i body' hi]
  exact ⟨rfl, rfl, rfl⟩

theorem sampleStore_wf : Store.WF sampleStore := by
  refine ⟨by decide, ?_⟩
  intro d hd
  simp only [sampleStore, List.mem_cons, List.mem_singleton, List.not_mem_nil, or_false] at hd
  rcases hd with h | h | h <;> subst h <;> decide

theorem getUserDesignsByID_foreign_is_not_found_witness :
    (getUserDesignsByID (sampleEnv (.error .timeout)) sampleStore
      ⟨"bob", "d1", Body.empty⟩).res.status = 404 :=
  (getUserDesignsByID_foreign_is_not_found (sampleEnv (.error .timeout)) sampleStore
    (sampleDesign "d1" "alice" 10) "bob" Body.empty sampleStore_wf (List.mem_cons_self _ _)
    (by decide) rfl).1

/-! ## Writing a design of another owner -/

theorem truthy_str_id (s : Store) (d : Design) (hwf : Store.WF s) (hd : d ∈ s) :
    (JsVal.str d._id).truthy = true := by
  simp only [JsVal.truthy, bne_iff_ne, ne_eq]
  exact hwf.2 d hd

/-- C2. In a well-formed collection, when the lookup does not reject, a caller
`b` who calls `saveDesign` with `designId` the identifier of a design `d` of
another owner (whatever the other body fields are), or `deleteDesign` with that
identifier, receives status 404, and the collection after the call is the
collection before it, so `d` is still there with all its fields. -/
theorem foreign_save_and_delete_refused (env : Env) (store : Store) (d : Design) (b : String)
    (pid : String) (body body' : Body) (hwf : Store.WF store) (hd : d ∈ store)
    (hb : b ≠ d.userId) (hdb : env.findOneFails = false) (hid : body.designId = .str d._id) :
    (saveDesign env store ⟨b, pid, body⟩).res.status = 404 ∧
    (saveDesign env store ⟨b, pid, body⟩).store = store ∧
    d ∈ (saveDesign env store ⟨b, pid, body⟩).store ∧
    (deleteDesign env store ⟨b, d._id, body'⟩).res.status = 404 ∧
    (deleteDesign env store ⟨b, d._id, body'⟩).store = store ∧
    d ∈ (deleteDesign env store ⟨b, d._id, body'⟩).store := by
  have h1 : saveDesign env store ⟨b, pid, body⟩
      = ⟨Response.withMessage 404 false
          "Design not found! or you don't have permission to view it.", store, []⟩ := by
    simp only [saveDesign, hid, truthy_str_id store d hwf hd, if_true,
      findOne_unique env store d (some b) hdb hwf hd, ownerMatches_other d b hb,
      Bool.false_eq_true, if_false]
  have h2 : deleteDesign env store ⟨b, d._id, body'⟩
      = ⟨Response.withMessage 404 false
          "Design not found! or you don't have permission to delete it.", store, []⟩ := by
    simp only [deleteDesign, findOne_unique env store d (some b) hdb hwf hd,
      ownerMatches_other d b hb, Bool.false_eq_true, if_false]
  rw [h1, h2]
  exact ⟨rfl, rfl, hd, rfl, rfl, hd⟩

theorem foreign_save_and_delete_refused_witness :
    (saveDesign (sampleEnv (.error .timeout)) sampleStore
      ⟨"bob", "", { Body.empty with designId := .str "d1", name := .str "Mine now" }⟩).res.status
        = 404 :=
  (foreign_save_and_delete_refused (sampleEnv (.error .timeout)) sampleStore
    (sampleDesign "d1" "alice" 10) "bob" ""
    { Body.empty with designId := .str "d1", name := .str "Mine now" } Body.empty
    sampleStore_wf (List.mem_cons_self _ _) (by decide) rfl rfl).1

/-! ## Updating a design -/

theorem ownerMatches_self (d : Design) (u : String) (h : d.userId = u) :
    ownerMatches (some u) d = true := by
  simp [ownerMatches, h]

theorem save_loaded_eq (env : Env) (s : Store) (d doc : Design) (hsave : env.saveFails = false)
    (hd : d ∈ s) (hid : doc._id = d._id) :
    Design.save env s false doc
      = .ok (doc, s.map (fun x => if x._id == d._id then doc else x)) := by
  have hany : s.any (fun x => x._id == doc._id) = true := by
    rw [List.any_eq_true]
    exact ⟨d, hd, by simp [hid]⟩
  simp only [Design.save, hsave, Bool.false_eq_true, if_false, hany, if_true]
  rw [hid]

theorem mem_replace_self (s : Store) (d doc : Design) (hd : d ∈ s) :
    doc ∈ s.map (fun x => if x._id == d._id then doc else x) := by
  rw [List.mem_map]
  exact ⟨d, hd, by simp⟩

theorem replace_unique (s : Store) (d doc x : Design)
    (hx : x ∈ s.map (fun y => if y._id == d._id then doc else y)) (hxid : x._id = d._id) :
    x = doc := by
  rw [List.mem_map] at hx
  obtain ⟨y, _, hy⟩ := hx
  by_cases h : y._id = d._id
  · simp only [h, beq_self_eq_true, if_true] at hy
    exact hy.symm
  · have hb : (y._id == d._id) = false := by simpa using h
    simp only [hb, Bool.false_eq_true, if_false] at hy
    subst hy
    exact absurd hxid h

theorem replace_keeps_others (s : Store) (d doc x : Design) (hx : x ∈ s) (hxid : x._id ≠ d._id) :
    x ∈ s.map (fun y => if y._id == d._id then doc else y) := by
  rw [List.mem_map]
  refine ⟨x, hx, ?_⟩
  have hb : (x._id == d._id) = false := by simpa using hxid
  simp only [hb, Bool.false_eq_true, if_false]

/-- The document `saveDesign` stores for a loaded design `d` and a body `b`. -/
theorem saveDesign_update_eq (env : Env) (store : Store) (d : Design) (req : Request)
    (hwf : Store.WF store) (hd : d ∈ store) (hown : d.userId = req.userId)
    (hid : req.body.designId = .str d._id) (hfind : env.findOneFails = false)
    (hsave : env.saveFails = false) :
    saveDesign env store req =
      ⟨Response.withData 200 (.design
          { d with
            name := assignIfTruthy req.body.name d.name
            canvasData := assignIfTruthy req.body.canvasData d.canvasData
            width := assignIfTruthy req.body.width d.width
            height := assignIfTruthy req.body.height d.height
            category := assignIfTruthy req.body.category d.category
            updatedAt := env.now }),
        store.map (fun x => if x._id == d._id then
          { d with
            name := assignIfTruthy req.body.name d.name
            canvasData := assignIfTruthy req.body.canvasData d.canvasData
            width := assignIfTruthy req.body.width d.width
            height := assignIfTruthy req.body.height d.height
            category := assignIfTruthy req.body.category d.category
            updatedAt := env.now } else x), []⟩ := by
  simp only [saveDesign, hid, truthy_str_id store d hwf hd, if_true,
    findOne_unique env store d (some req.userId) hfind hwf hd, ownerMatches_self d _ hown]
  rw [save_loaded_eq env store d ⟨d._id, d.userId, _, _, _, _, _, d.createdAt, env.now⟩ hsave hd
    rfl]

/-- C3. In a well-formed collection, when no persistence call rejects,
`saveDesign` with `designId` the identifier of a design `d` of the caller
answers 200 with a record `r` that is also the one stored under that
identifier: each of `name`, `canvasData`, `width`, `height`, `category` is the
supplied value when that value is truthy and the value of `d` otherwise (so
`undefined`, `null`, `0`, the empty string and `false` clear nothing),
`updatedAt` is the current time, and owner, identifier and creation time are
those of `d`; every other design is kept.  A body of only `designId` and
`width: 500` changes `width` and `updatedAt` alone, and `width: 0` keeps the
width. -/
theorem saveDesign_update_overwrites_truthy_fields (env : Env) (store : Store) (d : Design)
    (req : Request) (hwf : Store.WF store) (hd : d ∈ store) (hown : d.userId = req.userId)
    (hid : req.body.designId = .str d._id) (hfind : env.findOneFails = false)
    (hsave : env.saveFails = false) :
    ∃ r : Design,
      (saveDesign env store req).res.status = 200 ∧
      (saveDesign env store req).res.success = true ∧
      (saveDesign env store req).res.data = some (.design r) ∧
      r ∈ (saveDesign env store req).store ∧
      (∀ x ∈ (saveDesign env store req).store, x._id = d._id → x = r) ∧
      (∀ x ∈ store, x._id ≠ d._id → x ∈ (saveDesign env store req).store) ∧
      (saveDesign env store req).store.length = store.length ∧
      r.name = (if req.body.name.truthy = true then req.body.name else d.name) ∧
      r.canvasData
        = (if req.body.canvasData.truthy = true then req.body.canvasData else d.canvasData) ∧
      r.width = (if req.body.width.truthy = true then req.body.width else d.width) ∧
      r.height = (if req.body.height.truthy = true then req.body.height else d.height) ∧
      r.category = (if req.body.category.truthy = true then req.body.category else d.category) ∧
      r.updatedAt = env.now ∧ r.userId = d.userId ∧ r._id = d._id ∧
      r.createdAt = d.createdAt ∧
      (∀ v : JsVal, v = .undefined ∨ v = .null ∨ v = .num 0 ∨ v = .str "" ∨ v = .bool false →
        v.truthy = false) ∧
      (req.body.width = .num 0 → r.width = d.width) ∧
      (req.body = { Body.empty with designId := .str d._id, width := .num 500 } →
        r = { d with width := .num 500, updatedAt := env.now }) := by
  refine ⟨{ d with
      name := assignIfTruthy req.body.name d.name
      canvasData := assignIfTruthy req.body.canvasData d.canvasData
      width := assignIfTruthy req.body.width d.width
      height := assignIfTruthy req.body.height d.height
      category := assignIfTruthy req.body.category d.category
      updatedAt := env.now }, ?_⟩
  rw [saveDesign_update_eq env store d req hwf hd hown hid hfind hsave]
  refine ⟨rfl, rfl, rfl, mem_replace_self store d _ hd, ?_, ?_, by simp, rfl, rfl, rfl, rfl, rfl,
    rfl, rfl, rfl, rfl, ?_, ?_, ?_⟩
  · intro x hx hxid
    exact replace_unique store d _ x hx hxid
  · intro x hx hxid
    exact replace_keeps_others store d _ x hx hxid
  · intro v hv
    rcases hv with h | h | h | h | h <;> subst h <;> rfl
  · intro hw
    simp [assignIfTruthy, hw, JsVal.truthy]
  · intro hb
    simp [hb, assignIfTruthy, JsVal.truthy, Body.empty]

theorem saveDesign_update_overwrites_truthy_fields_witness :
    (saveDesign (sampleEnv (.error .timeout)) sampleStore
      ⟨"alice", "", { Body.empty with designId := .str "d1", width := .num 500 }⟩).res.data
        = some (.design { sampleDesign "d1" "alice" 10 with width := .num 500, updatedAt := 100 }) := by
  obtain ⟨r, h⟩ := saveDesign_update_overwrites_truthy_fields (sampleEnv (.error .timeout))
    sampleStore (sampleDesign "d1" "alice" 10)
    ⟨"alice", "", { Body.empty with designId := .str "d1", width := .num 500 }⟩
    sampleStore_wf (List.mem_cons_self _ _) rfl rfl rfl rfl
  rw [h.2.2.1, h.2.2.2.2.2.2.2.2.2.2.2.2.2.2.2.2.2.2 rfl]
  rfl

/-! ## Creating a design -/

theorem save_new_eq (env : Env) (s : Store) (doc : Design) (hsave : env.saveFails = false)
    (hfresh : ∀ x ∈ s, x._id ≠ doc._id) :
    Design.save env s true doc = .ok (doc, s ++ [doc]) := by
  have hany : s.any (fun x => x._id == doc._id) = false := by
    rw [List.any_eq_false]
    intro x hx
    simpa using hfresh x hx
  simp only [Design.save, hsave, Bool.false_eq_true, if_false, if_true, hany]

/-- C4, as amended. When `saveDesign` is called without `designId` and the
insertion succeeds (`save` does not reject and the new identifier is not
taken), the response is 200 with `success = true` and a record `r` whose owner
is the caller, whose `name` is the supplied name when that is truthy and
`"Untitled Design"` otherwise (in particular when `name` is omitted), and whose
`width`, `height`, `canvasData` and `category` are the supplied values; the
collection afterwards is the prior collection followed by `r`. -/
theorem saveDesign_create_inserts_record (env : Env) (store : Store) (req : Request)
    (hnone : req.body.designId = .undefined) (hsave : env.saveFails = false)
    (hfresh : ∀ x ∈ store, x._id ≠ env.newId) :
    ∃ r : Design,
      (saveDesign env store req).res.status = 200 ∧
      (saveDesign env store req).res.success = true ∧
      (saveDesign env store req).res.data = some (.design r) ∧
      (saveDesign env store req).store = store ++ [r] ∧
      r.userId = req.userId ∧
      r.name = (if req.body.name.truthy = true then req.body.name else .str "Untitled Design") ∧
      (req.body.name = .undefined → r.name = .str "Untitled Design") ∧
      r.width = req.body.width ∧ r.height = req.body.height ∧
      r.canvasData = req.body.canvasData ∧ r.category = req.body.category := by
  refine ⟨Design.new env req.userId (req.body.name.or (.str "Untitled Design")) req.body.width
    req.body.height req.body.canvasData req.body.category, ?_⟩
  have h : saveDesign env store req
      = ⟨Response.withData 200 (.design (Design.new env req.userId
          (req.body.name.or (.str "Untitled Design")) req.body.width req.body.height
          req.body.canvasData req.body.category)),
        store ++ [Design.new env req.userId (req.body.name.or (.str "Untitled Design"))
          req.body.width req.body.height req.body.canvasData req.body.category], []⟩ := by
    simp only [saveDesign, hnone, JsVal.truthy, Bool.false_eq_true, if_false]
    rw [save_new_eq env store _ hsave hfresh]
  rw [h]
  refine ⟨rfl, rfl, rfl, rfl, rfl, rfl, ?_, rfl, rfl, rfl, rfl⟩
  intro hn
  simp [Design.new, JsVal.or, hn, JsVal.truthy]

theorem saveDesign_create_inserts_record_witness :
    (saveDesign (sampleEnv (.error .timeout)) sampleStore
      ⟨"alice", "", { Body.empty with name := .str "Menu", width := .num 300 }⟩).res.status
        = 200 := by
  obtain ⟨_, h⟩ := saveDesign_create_inserts_record (sampleEnv (.error .timeout)) sampleStore
    ⟨"alice", "", { Body.empty with name := .str "Menu", width := .num 300 }⟩ rfl rfl
    (by
      intro x hx
      simp only [sampleStore, List.mem_cons, List.mem_singleton, List.not_mem_nil,
        or_false] at hx
      rcases hx with h | h | h <;> subst h <;> decide)
  exact h.1

/-- C4 as stated fails: a body that supplies the empty string as `name` (and no
`designId`) is answered 200, and the record returned does not carry the
supplied name. -/
theorem saveDesign_create_empty_name_counterexample :
    (saveDesign (sampleEnv (.error .timeout)) sampleStore
      ⟨"alice", "", { Body.empty with name := .str "" }⟩).res.status = 200 ∧
    (saveDesign (sampleEnv (.error .timeout)) sampleStore
      ⟨"alice", "", { Body.empty with name := .str "" }⟩).res.data
        = some (.design
            { _id := "d9", userId := "alice", name := .str "Untitled Design",
              canvasData := .undefined, width := .undefined, height := .undefined,
              category := .undefined, createdAt := 100, updatedAt := 100 }) ∧
    ¬ ∃ r : Design,
      (saveDesign (sampleEnv (.error .timeout)) sampleStore
        ⟨"alice", "", { Body.empty with name := .str "" }⟩).res.data = some (.design r) ∧
      r.name = .str "" := by
  have h : (saveDesign (sampleEnv (.error .timeout)) sampleStore
      ⟨"alice", "", { Body.empty with name := .str "" }⟩).res.data
        = some (.design
            { _id := "d9", userId := "alice", name := .str "Untitled Design",
              canvasData := .undefined, width := .undefined, height := .undefined,
              category := .undefined, createdAt := 100, updatedAt := 100 }) := by
    rfl
  refine ⟨rfl, h, ?_⟩
  rintro ⟨r, hr, hname⟩
  rw [h] at hr
  simp only [Option.some.injEq, Payload.design.injEq] at hr
  subst hr
  simp at hname

/-! ## Deleting a design -/

theorem eq_of_id_eq (s : Store) (x d : Design) (hnd : (s.map (fun y => y._id)).Nodup)
    (hx : x ∈ s) (hd : d ∈ s) (hid : x._id = d._id) : x = d :=
  List.inj_on_of_nodup_map hnd hx hd hid

theorem mem_eraseP_id (env : Env) (s : Store) (d x : Design) (hnd : (s.map (fun y => y._id)).Nodup)
    (hd : d ∈ s) : x ∈ s.eraseP (matchesId env (.str d._id)) ↔ x ∈ s ∧ x._id ≠ d._id := by
  induction s with
  | nil => cases hd
  | cons a t ih =>
    simp only [List.map_cons, List.nodup_cons] at hnd
    rcases List.mem_cons.mp hd with h | h
    · subst h
      have hm : matchesId env (.str d._id) d = true := (matchesId_str _ _ _).mpr rfl
      rw [List.eraseP_cons_of_pos hm]
      constructor
      · intro hx
        refine ⟨List.mem_cons_of_mem _ hx, ?_⟩
        intro he
        exact hnd.1 (he ▸ List.mem_map_of_mem (fun y => y._id) hx)
      · rintro ⟨hx, hne⟩
        rcases List.mem_cons.mp hx with h | h
        · exact absurd (congrArg (fun y => y._id) h) hne
        · exact h
    · have hne : a._id ≠ d._id := by
        intro he
        exact hnd.1 (he ▸ List.mem_map_of_mem (fun y => y._id) h)
      have hm : ¬ matchesId env (.str d._id) a = true := by
        rw [matchesId_str]
        exact hne
      rw [List.eraseP_cons_of_neg hm, List.mem_cons, List.mem_cons, ih hnd.2 h]
      constructor
      · rintro (hx | hx)
        · exact ⟨Or.inl hx, hx ▸ hne⟩
        · exact ⟨Or.inr hx.1, hx.2⟩
      · rintro ⟨hx | hx, hxne⟩
        · exact Or.inl hx
        · exact Or.inr ⟨hx, hxne⟩

theorem deleteDesign_owned_eq (env : Env) (store : Store) (d : Design) (req : Request)
    (hwf : Store.WF store) (hd : d ∈ store) (hown : d.userId = req.userId)
    (hpid : req.paramsId = d._id) (hfind : env.findOneFails = false)
    (hdel : env.deleteOneFails = false) :
    deleteDesign env store req
      = ⟨Response.withMessage 200 true "Design deleted successfully",
          store.eraseP (matchesId env (.str d._id)), []⟩ := by
  simp only [deleteDesign, hpid, findOne_unique env store d (some req.userId) hfind hwf hd,
    ownerMatches_self d _ hown, if_true, Design.deleteOne, hdel, Bool.false_eq_true, if_false]

/-- C5. In a well-formed collection, when no persistence call rejects, two
`deleteDesign` calls in a row by the owner for a design `d`: the first answers
200 with message `"Design deleted successfully"`, after it `d` is gone and the
collection holds exactly the other designs, in their order; the second answers
404 and changes nothing. -/
theorem deleteDesign_twice (env env' : Env) (store : Store) (d : Design) (req : Request)
    (hwf : Store.WF store) (hd : d ∈ store) (hown : d.userId = req.userId)
    (hpid : req.paramsId = d._id) (hfind : env.findOneFails = false)
    (hdel : env.deleteOneFails = false) (hfind' : env'.findOneFails = false) :
    (deleteDesign env store req).res.status = 200 ∧
    (deleteDesign env store req).res.success = true ∧
    (deleteDesign env store req).res.message = some "Design deleted successfully" ∧
    d ∉ (deleteDesign env store req).store ∧
    (∀ x : Design, x ∈ (deleteDesign env store req).store ↔ x ∈ store ∧ x ≠ d) ∧
    (deleteDesign env store req).store.Sublist store ∧
    (deleteDesign env store req).store.length + 1 = store.length ∧
    (deleteDesign env' (deleteDesign env store req).store req).res.status = 404 ∧
    (deleteDesign env' (deleteDesign env store req).store req).res.success = false ∧
    (deleteDesign env' (deleteDesign env store req).store req).store
      = (deleteDesign env store req).store := by
  rw [deleteDesign_owned_eq env store d req hwf hd hown hpid hfind hdel]
  have hmem : ∀ x : Design, x ∈ store.eraseP (matchesId env (.str d._id)) ↔ x ∈ store ∧ x ≠ d := by
    intro x
    rw [mem_eraseP_id env store d x hwf.1 hd]
    constructor
    · rintro ⟨hx, hne⟩
      exact ⟨hx, fun he => hne (he ▸ rfl)⟩
    · rintro ⟨hx, hne⟩
      exact ⟨hx, fun he => hne (eq_of_id_eq store x d hwf.1 hx hd he)⟩
  have hgone : ∀ x ∈ store.eraseP (matchesId env (.str d._id)), x._id ≠ d._id := by
    intro x hx
    exact ((mem_eraseP_id env store d x hwf.1 hd).mp hx).2
  have hsecond : deleteDesign env' (store.eraseP (matchesId env (.str d._id))) req
      = ⟨Response.withMessage 404 false
          "Design not found! or you don't have permission to delete it.",
          store.eraseP (matchesId env (.str d._id)), []⟩ := by
    simp only [deleteDesign, hpid, findOne_absent env' _ d._id (some req.userId) hfind' hgone]
  have hlen : (store.eraseP (matchesId env (.str d._id))).length + 1 = store.length := by
    have h := List.length_eraseP_of_mem hd ((matchesId_str env d._id d).mpr rfl)
    have hpos : 0 < store.length := List.length_pos_of_mem hd
    omega
  refine ⟨rfl, rfl, rfl, ?_, hmem, List.eraseP_sublist _, hlen, ?_, ?_, ?_⟩
  · intro h
    exact ((hmem d).mp h).2 rfl
  · show (deleteDesign env' (store.eraseP (matchesId env (.str d._id))) req).res.status = 404
    rw [hsecond]
    rfl
  · show (deleteDesign env' (store.eraseP (matchesId env (.str d._id))) req).res.success = false
    rw [hsecond]
    rfl
  · show (deleteDesign env' (store.eraseP (matchesId env (.str d._id))) req).store = _
    rw [hsecond]

theorem deleteDesign_twice_witness :
    (deleteDesign (sampleEnv (.error .timeout))
      (deleteDesign (sampleEnv (.error .timeout)) sampleStore
        ⟨"alice", "d1", Body.empty⟩).store ⟨"alice", "d1", Body.empty⟩).res.status = 404 :=
  (deleteDesign_twice (sampleEnv (.error .timeout)) (sampleEnv (.error .timeout)) sampleStore
    (sampleDesign "d1" "alice" 10) ⟨"alice", "d1", Body.empty⟩ sampleStore_wf
    (List.mem_cons_self _ _) rfl rfl rfl rfl rfl).2.2.2.2.2.2.2.1

/-! ## The preconditions of `generatePrompt` -/

theorem prompt_rejected (p : JsVal)
    (h : p = .undefined ∨ p.typeof ≠ "string" ∨ p = .str "") :
    (!p.truthy || p.typeof != "string") = true := by
  rcases h with h | h | h
  · subst h
    rfl
  · cases p <;> simp_all [JsVal.typeof, JsVal.truthy]
  · subst h
    rfl

theorem prompt_accepted (s : String) (h : s ≠ "") :
    (!(JsVal.str s).truthy || (JsVal.str s).typeof != "string") = false := by
  simp [JsVal.truthy, JsVal.typeof, h]

theorem findOne_str_some (env : Env) (s : Store) (i : String)
    (hdb : env.findOneFails = false) (h : ∃ x ∈ s, x._id = i) :
    ∃ d, d ∈ s ∧ d._id = i ∧ Design.findOne env s (.str i) none = .ok (some d) := by
  rw [findOne_eq env s (.str i) none hdb]
  obtain ⟨x, hx, hxid⟩ := h
  cases hf : s.find? (fun y => matchesId env (.str i) y && ownerMatches none y) with
  | none =>
    have := List.find?_eq_none.mp hf x hx
    simp [ownerMatches, (matchesId_str env i x).mpr hxid] at this
  | some d =>
    refine ⟨d, List.mem_of_find?_eq_some hf, ?_, rfl⟩
    have := List.find?_some hf
    simp only [ownerMatches, Bool.and_true] at this
    exact (matchesId_str env i d).mp this

theorem generatePrompt_not_found_eq (env : Env) (store : Store) (req : Request) (p : String)
    (hp : req.body.prompt = .str p) (hp0 : p ≠ "")
    (hnone : Design.findOne env store req.body.id none = .ok none) :
    generatePrompt env store req
      = ⟨Response.withMessage 404 false
          "Design not found! or you don't have permission to view it.", store, []⟩ := by
  simp only [generatePrompt, hp, prompt_accepted p hp0, Bool.false_eq_true, if_false, hnone]

theorem generatePrompt_missing_key_eq (env : Env) (store : Store) (req : Request) (p : String)
    (d : Design) (hp : req.body.prompt = .str p) (hp0 : p ≠ "")
    (hfound : Design.findOne env store req.body.id none = .ok (some d))
    (hkey : env.AIML_API_KEY = none) :
    generatePrompt env store req
      = ⟨Response.withMessage 500 false "Server missing AIML API key", store, []⟩ := by
  simp only [generatePrompt, hp, prompt_accepted p hp0, Bool.false_eq_true, if_false, hfound,
    apiKey, hkey]

/-- C6. The first failing precondition decides the response of
`generatePrompt`. A prompt that is missing, not a string or the empty string is
answered 400, whatever the identifier, the collection and the key are.
Otherwise, if the lookup `Design.findOne` finds no design the answer is 404,
whatever the key is, and that is the case when the identifier is a string that
no design of the collection has and the lookup does not reject.  Otherwise, if
the lookup finds a design and `AIML_API_KEY` is absent the answer is 500 with
message `"Server missing AIML API key"`, and that is the case when the
identifier is a string that a design has, the lookup does not reject and the
key is absent.  In the three cases no request is sent to the AI service and the
collection is unchanged.  Nothing is said on an identifier that is not a string
beyond what the lookup returns for it. -/
theorem generatePrompt_preconditions_in_order (env : Env) (store : Store) (req : Request) :
    ((req.body.prompt = .undefined ∨ req.body.prompt.typeof ≠ "string" ∨
        req.body.prompt = .str "") →
      (generatePrompt env store req).res.status = 400 ∧
      (generatePrompt env store req).res.success = false ∧
      (generatePrompt env store req).aiCalls = [] ∧
      (generatePrompt env store req).store = store) ∧
    (∀ p : String, req.body.prompt = .str p → p ≠ "" →
      (Design.findOne env store req.body.id none = .ok none →
        (generatePrompt env store req).res.status = 404 ∧
        (generatePrompt env store req).res.success = false ∧
        (generatePrompt env store req).aiCalls = [] ∧
        (generatePrompt env store req).store = store) ∧
      (∀ i : String, req.body.id = .str i → env.findOneFails = false →
        (∀ x ∈ store, x._id ≠ i) →
        (generatePrompt env store req).res.status = 404 ∧
        (generatePrompt env store req).res.success = false ∧
        (generatePrompt env store req).aiCalls = [] ∧
        (generatePrompt env store req).store = store) ∧
      (∀ d : Design, Design.findOne env store req.body.id none = .ok (some d) →
        env.AIML_API_KEY = none →
        (generatePrompt env store req).res.status = 500 ∧
        (generatePrompt env store req).res.success = false ∧
        (generatePrompt env store req).res.message = some "Server missing AIML API key" ∧
        (generatePrompt env store req).aiCalls = [] ∧
        (generatePrompt env store req).store = store) ∧
      (∀ i : String, req.body.id = .str i → env.findOneFails = false →
        (∃ x ∈ store, x._id = i) → env.AIML_API_KEY = none →
        (generatePrompt env store req).res.status = 500 ∧
        (generatePrompt env store req).res.success = false ∧
        (generatePrompt env store req).res.message = some "Server missing AIML API key" ∧
        (generatePrompt env store req).aiCalls = [] ∧
        (generatePrompt env store req).store = store)) := by
  refine ⟨?_, ?_⟩
  · intro h
    have he : generatePrompt env store req
        = ⟨Response.withMessage 400 false "'prompt' is required in request body",
            store, []⟩ := by
      simp only [generatePrompt, prompt_rejected _ h, if_true]
    rw [he]
    exact ⟨rfl, rfl, rfl, rfl⟩
  · intro p hp hp0
    refine ⟨?_, ?_, ?_, ?_⟩
    · intro hnone
      rw [generatePrompt_not_found_eq env store req p hp hp0 hnone]
      exact ⟨rfl, rfl, rfl, rfl⟩
    · intro i hi hdb hno
      have hnone : Design.findOne env store req.body.id none = .ok none := by
        rw [hi]
        exact findOne_absent env store i none hdb hno
      rw [generatePrompt_not_found_eq env store req p hp hp0 hnone]
      exact ⟨rfl, rfl, rfl, rfl⟩
    · intro d hfound hkey
      rw [generatePrompt_missing_key_eq env store req p d hp hp0 hfound hkey]
      exact ⟨rfl, rfl, rfl, rfl, rfl⟩
    · intro i hi hdb hex hkey
      obtain ⟨d, _, _, hfound⟩ := findOne_str_some env store i hdb hex
      rw [← hi] at hfound
      rw [generatePrompt_missing_key_eq env store req p d hp hp0 hfound hkey]
      exact ⟨rfl, rfl, rfl, rfl, rfl⟩

theorem generatePrompt_preconditions_in_order_witness :
    (generatePrompt (sampleEnvNoKey (.ok (completion (.str "X")))) sampleStore
      ⟨"alice", "", promptBody (.str "") (.str "zz")⟩).res.status = 400 ∧
    (generatePrompt (sampleEnvNoKey (.ok (completion (.str "X")))) sampleStore
      ⟨"alice", "", promptBody (.str "brighter") (.str "zz")⟩).res.status = 404 ∧
    (generatePrompt (sampleEnvNoKey (.ok (completion (.str "X")))) sampleStore
      ⟨"alice", "", promptBody (.str "brighter") (.str "d2")⟩).res.message
        = some "Server missing AIML API key" ∧
    (generatePrompt (sampleEnvNoKey (.ok (completion (.str "X")))) sampleStore
      ⟨"alice", "", promptBody (.str "brighter") (.str "zy")⟩).aiCalls = [] ∧
    (generatePrompt (sampleEnvNoKey (.ok (completion (.str "X")))) sampleStore
      ⟨"alice", "", promptBody (.str "brighter") (.str "d3")⟩).res.status = 500 :=
  ⟨((generatePrompt_preconditions_in_order (sampleEnvNoKey (.ok (completion (.str "X"))))
      sampleStore ⟨"alice", "", promptBody (.str "") (.str "zz")⟩).1
      (Or.inr (Or.inr rfl))).1,
    (((generatePrompt_preconditions_in_order (sampleEnvNoKey (.ok (completion (.str "X"))))
      sampleStore ⟨"alice", "", promptBody (.str "brighter") (.str "zz")⟩).2
      "brighter" rfl (by decide)).2.1 "zz" rfl rfl
      (by
        intro x hx
        simp only [sampleStore, List.mem_cons, List.mem_singleton, List.not_mem_nil,
          or_false] at hx
        rcases hx with h | h | h <;> subst h <;> decide)).1,
    (((generatePrompt_preconditions_in_order (sampleEnvNoKey (.ok (completion (.str "X"))))
      sampleStore ⟨"alice", "", promptBody (.str "brighter") (.str "d2")⟩).2
      "brighter" rfl (by decide)).2.2.2 "d2" rfl rfl
      ⟨sampleDesign "d2" "bob" 30, by simp [sampleStore], rfl⟩ rfl).2.2.1,
    (((generatePrompt_preconditions_in_order (sampleEnvNoKey (.ok (completion (.str "X"))))
      sampleStore ⟨"alice", "", promptBody (.str "brighter") (.str "zy")⟩).2
      "brighter" rfl (by decide)).1 rfl).2.2.1,
    (((generatePrompt_preconditions_in_order (sampleEnvNoKey (.ok (completion (.str "X"))))
      sampleStore ⟨"alice", "", promptBody (.str "brighter") (.str "d3")⟩).2
      "brighter" rfl (by decide)).2.2.1 (sampleDesign "d3" "alice" 20) rfl rfl).1⟩

/-- An identifier that is an operator object goes to the lookup as it is: over a
database that selects a document for it the handler passes the second check and
stops at the third. -/
theorem generatePrompt_operator_id_reaches_key_check :
    (generatePrompt (sampleEnvSelecting (.ok (completion (.str "X")))) sampleStore
      ⟨"bob", "", promptBody (.str "brighter") (.obj [("$ne", .null)])⟩).res.message
        = some "Server missing AIML API key" ∧
    (generatePrompt (sampleEnvNoKey (.ok (completion (.str "X")))) sampleStore
      ⟨"bob", "", promptBody (.str "brighter") (.obj [("$ne", .null)])⟩).res.status = 404 :=
  ⟨rfl, rfl⟩

/-! ## Listing the designs of a caller -/

/-- C9. When the query does not reject, `getUserDesigns` answers 200 with
`success = true` and a list that holds exactly the designs of the collection
whose owner is the caller, each as often as the collection holds it, ordered by
`updatedAt` descending: of two neighbours the earlier has an `updatedAt`
greater than or equal to the later one, and greater when the two differ.  The
collection is unchanged. -/
theorem getUserDesigns_lists_own_designs_newest_first (env : Env) (store : Store)
    (req : Request) (hdb : env.findFails = false) :
    ∃ l : List Design,
      (getUserDesigns env store req).res.status = 200 ∧
      (getUserDesigns env store req).res.success = true ∧
      (getUserDesigns env store req).res.data = some (.designs l) ∧
      (getUserDesigns env store req).store = store ∧
      l.Perm (store.filter (fun d => decide (d.userId = req.userId))) ∧
      (∀ d : Design, d ∈ l ↔ d ∈ store ∧ d.userId = req.userId) ∧
      l.Pairwise (fun a b => b.updatedAt ≤ a.updatedAt) ∧
      l.Chain' (fun a b => b.updatedAt ≤ a.updatedAt ∧
        (a.updatedAt ≠ b.updatedAt → b.updatedAt < a.updatedAt)) := by
  refine ⟨(store.filter (fun d => d.userId == req.userId)).insertionSort newerFirst, ?_⟩
  have he : getUserDesigns env store req
      = ⟨Response.withData 200 (.designs
          ((store.filter (fun d => d.userId == req.userId)).insertionSort newerFirst)),
          store, []⟩ := by
    simp only [getUserDesigns, Design.find, hdb, Bool.false_eq_true, if_false]
  have hfilter : store.filter (fun d => d.userId == req.userId)
      = store.filter (fun d => decide (d.userId = req.userId)) := by
    apply List.filter_congr
    intro x _
    rfl
  have hsorted : ((store.filter (fun d => d.userId == req.userId)).insertionSort
      newerFirst).Pairwise (fun a b => b.updatedAt ≤ a.updatedAt) :=
    List.sorted_insertionSort newerFirst _
  rw [he]
  refine ⟨rfl, rfl, rfl, rfl, ?_, ?_, hsorted, ?_⟩
  · rw [← hfilter]
    exact List.perm_insertionSort newerFirst _
  · intro d
    rw [List.mem_insertionSort, List.mem_filter]
    simp
  · refine List.Chain'.imp ?_ hsorted.chain'
    intro a b hab
    exact ⟨hab, fun hne => Nat.lt_of_le_of_ne hab (fun h => hne h.symm)⟩

theorem getUserDesigns_lists_own_designs_newest_first_witness :
    (getUserDesigns (sampleEnv (.error .timeout)) sampleStore
      ⟨"alice", "", Body.empty⟩).res.status = 200 := by
  obtain ⟨_, h⟩ := getUserDesigns_lists_own_designs_newest_first (sampleEnv (.error .timeout))
    sampleStore ⟨"alice", "", Body.empty⟩ rfl
  exact h.1

/-! ## The AI call of `generatePrompt` -/

theorem apiKey_configured (env : Env) (k : String) (hkey : env.AIML_API_KEY = some k)
    (hk : k ≠ "") : apiKey env = some k := by
  simp [apiKey, hkey, hk]

theorem generatePrompt_after_checks (env : Env) (store : Store) (req : Request) (d : Design)
    (p k : String) (hp : req.body.prompt = .str p) (hp0 : p ≠ "")
    (hfound : Design.findOne env store req.body.id none = .ok (some d))
    (hkey : apiKey env = some k) :
    generatePrompt env store req =
      match env.axiosPost (aiRequest k d (.str p)) with
      | .error _ =>
        ⟨Response.withMessage 500 false "Failed to generate AI response", store,
          [aiRequest k d (.str p)]⟩
      | .ok data =>
        match loggedResult data with
        | .error _ =>
          ⟨Response.withMessage 500 false "Failed to generate AI response", store,
            [aiRequest k d (.str p)]⟩
        | .ok _ =>
          match aiResponse data with
          | .error _ =>
            ⟨Response.withMessage 500 false "Failed to generate AI response", store,
              [aiRequest k d (.str p)]⟩
          | .ok text =>
            match Design.save env store false { d with canvasData := text } with
            | .error _ =>
              ⟨Response.withMessage 500 false "Failed to generate AI response", store,
                [aiRequest k d (.str p)]⟩
            | .ok (_, store') =>
              ⟨Response.withMessage 200 true "successfully", store',
                [aiRequest k d (.str p)]⟩ := by
  simp only [generatePrompt, hp, prompt_accepted p hp0, Bool.false_eq_true, if_false, hfound,
    hkey]

theorem aiResponse_first_content (fields choice msg : List (String × JsVal))
    (rest : List JsVal) (x : String)
    (hchoices : fields.lookup "choices" = some (.arr (.obj choice :: rest)))
    (hmsg : choice.lookup "message" = some (.obj msg))
    (hcontent : msg.lookup "content" = some (.str x)) (hx : x ≠ "") :
    loggedResult (.obj fields) = .ok (.str x) ∧ aiResponse (.obj fields) = .ok (.str x) := by
  simp [loggedResult, aiResponse, JsVal.get, JsVal.getOpt, JsVal.nullish, JsVal.member,
    hchoices, hmsg, hcontent, JsVal.or, JsVal.truthy, hx]

/-- C7. In a well-formed collection, when no persistence call rejects: a
`generatePrompt` request of any caller (the handler does not read the caller)
with a non-empty string prompt and the identifier of a design `d`, with the key
configured, to which the AI service answers a body whose `choices[0]` is an
object with `message.content` a non-empty string `x`, is answered 200 with
`success = true`, message `"successfully"` and no `data`; afterwards the design
stored under the identifier of `d` is `d` with `canvasData` equal to `x`, all
other fields as before, and every other design is as before. -/
theorem generatePrompt_stores_ai_text (env : Env) (store : Store) (d : Design) (req : Request)
    (p k x : String) (fields choice msg : List (String × JsVal)) (rest : List JsVal)
    (hwf : Store.WF store) (hd : d ∈ store) (hid : req.body.id = .str d._id)
    (hp : req.body.prompt = .str p) (hp0 : p ≠ "") (hfind : env.findOneFails = false)
    (hsave : env.saveFails = false) (hkey : env.AIML_API_KEY = some k) (hk : k ≠ "")
    (hai : env.axiosPost (aiRequest k d (.str p)) = .ok (.obj fields))
    (hchoices : fields.lookup "choices" = some (.arr (.obj choice :: rest)))
    (hmsg : choice.lookup "message" = some (.obj msg))
    (hcontent : msg.lookup "content" = some (.str x)) (hx : x ≠ "") :
    (generatePrompt env store req).res.status = 200 ∧
    (generatePrompt env store req).res.success = true ∧
    (generatePrompt env store req).res.message = some "successfully" ∧
    (generatePrompt env store req).res.data = none ∧
    { d with canvasData := .str x } ∈ (generatePrompt env store req).store ∧
    (∀ y ∈ (generatePrompt env store req).store, y._id = d._id →
      y = { d with canvasData := .str x }) ∧
    (∀ y ∈ store, y._id ≠ d._id → y ∈ (generatePrompt env store req).store) ∧
    (generatePrompt env store req).store
      = store.map (fun y => if y._id = d._id then { d with canvasData := .str x } else y) ∧
    (generatePrompt env store req).aiCalls = [aiRequest k d (.str p)] := by
  have hfound : Design.findOne env store req.body.id none = .ok (some d) := by
    rw [hid, findOne_unique env store d none hfind hwf hd]
    rfl
  have he : generatePrompt env store req
      = ⟨Response.withMessage 200 true "successfully",
          store.map (fun y => if y._id == d._id then { d with canvasData := .str x } else y),
          [aiRequest k d (.str p)]⟩ := by
    rw [generatePrompt_after_checks env store req d p k hp hp0 hfound
      (apiKey_configured env k hkey hk)]
    simp only [hai, (aiResponse_first_content fields choice msg rest x hchoices hmsg hcontent
      hx).1, (aiResponse_first_content fields choice msg rest x hchoices hmsg hcontent hx).2]
    rw [save_loaded_eq env store d { d with canvasData := .str x } hsave hd rfl]
  rw [he]
  refine ⟨rfl, rfl, rfl, rfl, mem_replace_self store d _ hd, ?_, ?_, ?_, rfl⟩
  · intro y hy hyid
    exact replace_unique store d _ y hy hyid
  · intro y hy hyid
    exact replace_keeps_others store d _ y hy hyid
  · apply List.map_congr_left
    intro y _
    by_cases h : y._id = d._id <;> simp [h]

theorem generatePrompt_stores_ai_text_witness :
    (generatePrompt (sampleEnv (.ok (completion (.str "X")))) sampleStore
      ⟨"bob", "", promptBody (.str "brighter") (.str "d1")⟩).store
      = [{ sampleDesign "d1" "alice" 10 with canvasData := .str "X" },
          sampleDesign "d2" "bob" 30, sampleDesign "d3" "alice" 20] := by
  rw [(generatePrompt_stores_ai_text (sampleEnv (.ok (completion (.str "X")))) sampleStore
    (sampleDesign "d1" "alice" 10) ⟨"bob", "", promptBody (.str "brighter") (.str "d1")⟩
    "brighter" "secret" "X" _ _ _ [] sampleStore_wf (List.mem_cons_self _ _) rfl rfl
    (by decide) rfl rfl rfl (by decide) rfl rfl rfl rfl (by decide)).2.2.2.2.2.2.2.1]
  rfl

/-! ## A failed AI call -/

/-- C10. A `generatePrompt` request with a non-empty string prompt, for which
the lookup returned a design and the key is configured, and whose AI call
rejects with whatever error, is answered 500 with `success = false` and the one
message `"Failed to generate AI response"`; the collection, and so the
`canvasData` of the design, is as before.  The one request was sent. -/
theorem generatePrompt_ai_failure_is_generic_500 (env : Env) (store : Store) (req : Request)
    (d : Design) (p k : String) (e : AxiosError) (hp : req.body.prompt = .str p)
    (hp0 : p ≠ "") (hfound : Design.findOne env store req.body.id none = .ok (some d))
    (hkey : env.AIML_API_KEY = some k) (hk : k ≠ "")
    (hai : env.axiosPost (aiRequest k d (.str p)) = .error e) :
    (generatePrompt env store req).res.status = 500 ∧
    (generatePrompt env store req).res.success = false ∧
    (generatePrompt env store req).res.message = some "Failed to generate AI response" ∧
    (generatePrompt env store req).res.data = none ∧
    (generatePrompt env store req).store = store ∧
    (generatePrompt env store req).aiCalls = [aiRequest k d (.str p)] := by
  have he : generatePrompt env store req
      = ⟨Response.withMessage 500 false "Failed to generate AI response", store,
          [aiRequest k d (.str p)]⟩ := by
    rw [generatePrompt_after_checks env store req d p k hp hp0 hfound
      (apiKey_configured env k hkey hk)]
    simp only [hai]
  rw [he]
  exact ⟨rfl, rfl, rfl, rfl, rfl, rfl⟩

theorem generatePrompt_ai_failure_is_generic_500_witness :
    (generatePrompt (sampleEnv (.error (.status 429 (.obj [("error", .str "rate limited")]))))
      sampleStore ⟨"alice", "", promptBody (.str "brighter") (.str "d1")⟩).res.message
        = some "Failed to generate AI response" :=
  (generatePrompt_ai_failure_is_generic_500
    (sampleEnv (.error (.status 429 (.obj [("error", .str "rate limited")])))) sampleStore
    ⟨"alice", "", promptBody (.str "brighter") (.str "d1")⟩ (sampleDesign "d1" "alice" 10)
    "brighter" "secret" (.status 429 (.obj [("error", .str "rate limited")])) rfl (by decide)
    rfl rfl (by decide) rfl).2.2.1

/-! ## The shape of the AI response -/

theorem aiResponse_without_choices (fields : List (String × JsVal))
    (h : fields.lookup "choices" = none) :
    loggedResult (.obj fields) = .ok (.str "") ∧ aiResponse (.obj fields) = .error .typeError := by
  simp [loggedResult, aiResponse, JsVal.get, JsVal.getOpt, JsVal.nullish, JsVal.member, h,
    JsVal.or, JsVal.truthy]

/-- C8. The fallback to the empty string is reached for three of the four
shapes only. When the AI service answers a body without `choices`, the
expression that is logged falls back to `""`, but the one that is stored reads
`choices[0]` of `undefined`: the handler answers 500 with
`"Failed to generate AI response"` and the collection keeps the old
`canvasData`.  For `choices: []`, for a first choice without `message` and for
a `message` without `content` the handler answers 200 and stores `""`. -/
theorem generatePrompt_missing_choices_is_500 :
    loggedResult (.obj [("error", .str "overloaded")]) = .ok (.str "") ∧
    (generatePrompt (sampleEnv (.ok (.obj [("error", .str "overloaded")]))) sampleStore
      ⟨"alice", "", promptBody (.str "brighter") (.str "d1")⟩).res.status = 500 ∧
    (generatePrompt (sampleEnv (.ok (.obj [("error", .str "overloaded")]))) sampleStore
      ⟨"alice", "", promptBody (.str "brighter") (.str "d1")⟩).res.message
        = some "Failed to generate AI response" ∧
    (generatePrompt (sampleEnv (.ok (.obj [("error", .str "overloaded")]))) sampleStore
      ⟨"alice", "", promptBody (.str "brighter") (.str "d1")⟩).store = sampleStore ∧
    (sampleDesign "d1" "alice" 10).canvasData = .str "canvas-0" ∧
    (generatePrompt (sampleEnv (.ok (.obj [("choices", .arr [])]))) sampleStore
      ⟨"alice", "", promptBody (.str "brighter") (.str "d1")⟩).res.status = 200 ∧
    (generatePrompt (sampleEnv (.ok (.obj [("choices", .arr [])]))) sampleStore
      ⟨"alice", "", promptBody (.str "brighter") (.str "d1")⟩).store
        = [{ sampleDesign "d1" "alice" 10 with canvasData := .str "" },
            sampleDesign "d2" "bob" 30, sampleDesign "d3" "alice" 20] ∧
    (generatePrompt (sampleEnv (.ok (.obj [("choices", .arr [.obj []])]))) sampleStore
      ⟨"alice", "", promptBody (.str "brighter") (.str "d1")⟩).res.status = 200 ∧
    (generatePrompt (sampleEnv (.ok (.obj [("choices", .arr [.obj []])]))) sampleStore
      ⟨"alice", "", promptBody (.str "brighter") (.str "d1")⟩).store
        = [{ sampleDesign "d1" "alice" 10 with canvasData := .str "" },
            sampleDesign "d2" "bob" 30, sampleDesign "d3" "alice" 20] ∧
    (generatePrompt (sampleEnv (.ok (.obj [("choices", .arr [.obj [("message", .obj [])]])])))
      sampleStore ⟨"alice", "", promptBody (.str "brighter") (.str "d1")⟩).res.status = 200 ∧
    (generatePrompt (sampleEnv (.ok (.obj [("choices", .arr [.obj [("message", .obj [])]])])))
      sampleStore ⟨"alice", "", promptBody (.str "brighter") (.str "d1")⟩).store
        = [{ sampleDesign "d1" "alice" 10 with canvasData := .str "" },
            sampleDesign "d2" "bob" 30, sampleDesign "d3" "alice" 20] :=
  ⟨rfl, rfl, rfl, rfl, rfl, rfl, rfl, rfl, rfl, rfl, rfl⟩

end DesignService
